import Mathlib

/-
  Verification of the schema-adaptive synchronization layer of the
  estate-admin dashboard (src/unnamed/part_004, the main App component).

  The embedding models:
  - remote rows as partial maps from string keys to JS-like values,
  - the row normalizers (mapLeadRow, mapTaskRow, mapEventRow,
    mapTransactionRow, mapListingToProperty),
  - the error classifiers (isSchemaCacheColumnError, isMissingRelationError),
  - the fallback write executor (insertWithFallback, updateWithFallback),
  - the property table resolver inside fetchAllData,
  - the entity-store mutations (addLead, updateLead, deleteLead,
    toggleTaskComplete, addEvent) as pure functions of the remote outcomes,
  - the role gate and the cache-version guard.

  JS semantics notes used throughout:
  - undefined is modeled as Option.none;
  - the JS operator a || b takes a when a is defined and truthy, else b
    (the last operand of a chain is returned raw, even if falsy);
  - the JS operator a ?? b takes a whenever a is defined;
  - Boolean(x) is truthiness; String lowering/trimming is modeled at the
    ASCII level (the strings involved in classification are ASCII).
-/

namespace EstateAdmin

/-- JS values occurring in remote rows: strings, booleans, numbers and
arrays of strings (enough for the columns the App reads). -/
inductive JsVal where
  | str (s : String)
  | boolv (b : Bool)
  | num (n : Int)
  | arr (elems : List String)
  deriving DecidableEq

/-- JS truthiness of a defined value: empty string, false and 0 are falsy;
arrays are always truthy. -/
def JsVal.truthy : JsVal → Bool
  | .str s => s ≠ ""
  | .boolv b => b
  | .num n => n ≠ 0
  | .arr _ => true

/-- The JS expression a || b for possibly-undefined a, b: a when defined
and truthy, otherwise b (returned raw). -/
def jsOr (a b : Option JsVal) : Option JsVal :=
  match a with
  | some v => if v.truthy then some v else b
  | none => b

/-- The JS expression a || d where d is a defined literal default ending a
fallback chain. -/
def jsOrDefault (a : Option JsVal) (d : JsVal) : JsVal :=
  match a with
  | some v => if v.truthy then v else d
  | none => d

/-- The JS expression a ?? d with a defined default: a whenever defined
(even falsy), otherwise d. -/
def jsNullish (a : Option JsVal) (d : JsVal) : JsVal :=
  match a with
  | some v => v
  | none => d

/-- The JS expression a ?? b where both sides may be undefined. -/
def jsNullishOpt (a b : Option JsVal) : Option JsVal :=
  match a with
  | some v => some v
  | none => b

/-- Boolean(x) on a possibly-undefined value: Boolean(undefined) is false. -/
def jsBoolean (a : Option JsVal) : Bool :=
  match a with
  | some v => v.truthy
  | none => false

/-- Number(x) on a defined value, none standing for NaN.  Integer numeric
strings are parsed; non-numeric strings give NaN.  (Fractional numeric
strings and array arguments do not occur in the numeric columns used by
the App and are mapped to NaN / an unspecified value here.) -/
def jsToNumber : JsVal → Option Int
  | .num n => some n
  | .str s => s.toInt?
  | .boolv b => some (if b then 1 else 0)
  | .arr _ => none

/-- The JS expression Number(x) || 0 used for price/amount columns:
NaN (and undefined, since Number(undefined) is NaN) collapses to 0,
and a numeric 0 stays 0. -/
def jsNumberOr0 (a : Option JsVal) : Int :=
  match a with
  | none => 0
  | some v =>
    match jsToNumber v with
    | none => 0
    | some n => n

/-- A remote row: an untyped mapping from column names to values,
absent columns being undefined. -/
def Row := String → Option JsVal

/-- ASCII lower-casing of a character, modeling JS toLowerCase on the
ASCII strings that appear in error messages and role labels. -/
def lowerChar (c : Char) : Char :=
  if 65 ≤ c.toNat ∧ c.toNat ≤ 90 then Char.ofNat (c.toNat + 32) else c

/-- Lower-case a string given as a character list. -/
def lowerList (l : List Char) : List Char := l.map lowerChar

/-- Whitespace test for the trim model. -/
def isWs (c : Char) : Bool := c == ' ' || c == '\t' || c == '\n' || c == '\r'

/-- JS String.prototype.trim modeled on character lists. -/
def trimList (l : List Char) : List Char :=
  ((l.dropWhile isWs).reverse.dropWhile isWs).reverse

/-- Does the second list start with the first? -/
def startsWith : List Char → List Char → Bool
  | _, [] => true
  | [], _ :: _ => false
  | h :: hs, p :: ps => (h == p) && startsWith hs ps

/-- Substring containment (JS String.prototype.includes) on character
lists: containsSub pat hay is true when pat occurs contiguously in hay. -/
def containsSub (pat : List Char) : List Char → Bool
  | [] => startsWith [] pat
  | c :: t => startsWith (c :: t) pat || containsSub pat t

/-- The JS expression String(x || '') applied to a string-or-undefined
field: undefined and the empty string both give the empty string. -/
def jsStringOf (o : Option String) : String := o.getD ""

/-- String(field || '').toLowerCase() as a character list. -/
def lowerField (o : Option String) : List Char := lowerList (jsStringOf o).data

/-- The error object shape consumed from the remote table client:
message and details may each be absent. -/
structure SupaError where
  message : Option String
  details : Option String
  deriving DecidableEq

/-- Classifier isSchemaCacheColumnError from the App: substring checks on
the lower-cased message only (the details field is not read). -/
def isSchemaCacheColumnError (e : SupaError) : Bool :=
  let msg := lowerField e.message
  (containsSub "schema cache".data msg && containsSub "could not find".data msg)
  || (containsSub "column".data msg && containsSub "does not exist".data msg)
  || (containsSub "could not find".data msg && containsSub "column".data msg)

/-- Classifier isMissingRelationError from the App: substring checks on
the lower-cased message and on the lower-cased details. -/
def isMissingRelationError (e : SupaError) : Bool :=
  let msg := lowerField e.message
  let det := lowerField e.details
  (containsSub "relation".data msg && containsSub "does not exist".data msg)
  || (containsSub "relation".data det && containsSub "does not exist".data det)

/-- Outcome of one remote write call: a returned row (insert ... select
single) or a structured error. -/
inductive WriteResult (α : Type) where
  | ok (a : α)
  | err (e : SupaError)
  deriving DecidableEq

/-- insertWithFallback from the App.  The two arguments are the outcomes
the remote store would give to the primary and to the fallback payload;
the second component counts how many remote insert calls were issued.
The code awaits the primary insert, returns on success, returns the error
unchanged when it is not a schema-cache-miss, and otherwise issues the
fallback insert exactly once and returns its outcome as final. -/
def insertWithFallback {α : Type} (first second : WriteResult α) :
    WriteResult α × Nat :=
  match first with
  | .ok a => (.ok a, 1)
  | .err e => if isSchemaCacheColumnError e then (second, 2) else (.err e, 1)

/-- updateWithFallback from the App: like insertWithFallback but an update
only reports an optional error (none means success).  The second
component counts the remote update calls issued. -/
def updateWithFallback (first second : Option SupaError) :
    Option SupaError × Nat :=
  match first with
  | none => (none, 1)
  | some e => if isSchemaCacheColumnError e then (second, 2) else (some e, 1)

/-- Canonical Lead record as built by mapLeadRow.  Fields copied raw from
the row keep type Option JsVal; fields given a default are always
defined. -/
structure Lead where
  id : Option JsVal
  name : Option JsVal
  email : Option JsVal
  phone : JsVal
  status : JsVal
  source : JsVal
  notes : JsVal
  lastContact : JsVal
  createdAt : JsVal
  deriving DecidableEq

/-- mapLeadRow from the App; now stands for new Date().toISOString() at
the time of normalization. -/
def mapLeadRow (now : String) (row : Row) : Lead :=
  { id := row "id"
    name := row "name"
    email := row "email"
    phone := jsNullish (row "phone") (.str "")
    status := jsNullish (row "status") (.str "new")
    source := jsNullish (row "source") (.str "")
    notes := jsNullish (row "notes") (.str "")
    lastContact := jsOrDefault
      (jsOr (row "lastContact") (jsOr (row "lastcontact") (jsOr (row "last_contact")
        (jsOr (row "createdAt") (jsOr (row "createdat") (row "created_at"))))))
      (.str now)
    createdAt := jsOrDefault
      (jsOr (row "createdAt") (jsOr (row "createdat") (row "created_at")))
      (.str now) }

/-- Canonical Task record as built by mapTaskRow. -/
structure Task where
  id : Option JsVal
  title : Option JsVal
  description : JsVal
  dueDate : JsVal
  priority : JsVal
  category : JsVal
  completed : Bool
  completedAt : Option JsVal
  createdAt : JsVal
  deriving DecidableEq

/-- mapTaskRow from the App.  completed is Boolean(row.completed) and
completedAt is the raw fallback chain with no default, so it stays
undefined when no variant key holds a truthy value (except that a falsy
defined completed_at is returned raw, as JS || does with its last
operand). -/
def mapTaskRow (now : String) (row : Row) : Task :=
  { id := row "id"
    title := row "title"
    description := jsNullish (row "description") (.str "")
    dueDate := jsOrDefault
      (jsOr (row "dueDate") (jsOr (row "duedate") (row "due_date"))) (.str now)
    priority := jsNullish (row "priority") (.str "medium")
    category := jsNullish (row "category") (.str "General")
    completed := jsBoolean (row "completed")
    completedAt := jsOr (row "completedAt") (jsOr (row "completedat") (row "completed_at"))
    createdAt := jsOrDefault
      (jsOr (row "createdAt") (jsOr (row "createdat") (row "created_at")))
      (.str now) }

/-- The Task invariant claimed by the spec: completed is true exactly when
completedAt is defined. -/
def taskInvariant (t : Task) : Bool := t.completed == t.completedAt.isSome

/-- Canonical CalendarEvent record as built by mapEventRow. -/
structure CalendarEvent where
  id : Option JsVal
  title : Option JsVal
  description : JsVal
  date : Option JsVal
  startTime : JsVal
  endTime : JsVal
  color : JsVal
  duration : JsVal
  createdAt : JsVal
  deriving DecidableEq

/-- mapEventRow from the App. -/
def mapEventRow (now : String) (row : Row) : CalendarEvent :=
  { id := row "id"
    title := row "title"
    description := jsNullish (row "description") (.str "")
    date := row "date"
    startTime := jsOrDefault
      (jsOr (row "startTime") (jsOr (row "starttime") (row "start_time")))
      (.str "09:00")
    endTime := jsOrDefault
      (jsOr (row "endTime") (jsOr (row "endtime") (row "end_time")))
      (.str "10:00")
    color := jsNullish (row "color") (.str "blue")
    duration := jsNullish (row "duration") (.str "30m")
    createdAt := jsOrDefault
      (jsOr (row "createdAt") (jsOr (row "createdat") (row "created_at")))
      (.str now) }

/-- Canonical Transaction record as built by mapTransactionRow. -/
structure Transaction where
  id : Option JsVal
  date : Option JsVal
  description : Option JsVal
  type : Option JsVal
  category : JsVal
  amount : Int
  method : JsVal
  reference : Option JsVal
  createdAt : JsVal
  deriving DecidableEq

/-- mapTransactionRow from the App (reference ?? undefined is the raw
optional field). -/
def mapTransactionRow (now : String) (row : Row) : Transaction :=
  { id := row "id"
    date := row "date"
    description := row "description"
    type := row "type"
    category := jsNullish (row "category") (.str "")
    amount := jsNumberOr0 (row "amount")
    method := jsNullish (row "method") (.str "")
    reference := row "reference"
    createdAt := jsOrDefault
      (jsOr (row "createdAt") (jsOr (row "createdat") (row "created_at")))
      (.str now) }

/-- Canonical Property record as built by mapListingToProperty. -/
structure Property where
  id : Option JsVal
  name : Option JsVal
  address : Option JsVal
  price : Int
  type : Option JsVal
  bedrooms : Option JsVal
  bathrooms : Option JsVal
  size : Option JsVal
  status : JsVal
  images : JsVal
  energyClass : Option JsVal
  petsAllowed : Option JsVal
  coordinates : Option JsVal
  createdAt : JsVal
  deriving DecidableEq

/-- mapListingToProperty from the App.  Note that images is
row.images || row.image_urls || [] and that energyClass and petsAllowed
check the snake_case key before the camel-case key, with ?? (presence,
not truthiness). -/
def mapListingToProperty (now : String) (row : Row) : Property :=
  { id := row "id"
    name := row "name"
    address := row "address"
    price := jsNumberOr0 (row "price")
    type := row "type"
    bedrooms := row "bedrooms"
    bathrooms := row "bathrooms"
    size := row "size"
    status := jsOrDefault (row "status") (.str "active")
    images := jsOrDefault (jsOr (row "images") (row "image_urls")) (.arr [])
    energyClass := jsNullishOpt (row "energy_class") (row "energyClass")
    petsAllowed := jsNullishOpt (row "pets_allowed") (row "petsAllowed")
    coordinates := row "coordinates"
    createdAt := jsOrDefault
      (jsOr (row "createdAt") (jsOr (row "createdat") (row "created_at")))
      (.str now) }

/-- Outcome of one remote select: either rows (data non-null) or a
structured error (the supabase client returns exactly one of data and
error; this excludes the impossible null/null combination). -/
def QueryResult := Except SupaError (List Row)

/-- Did the select succeed (data non-null, error null)? -/
def qSuccess : QueryResult → Bool
  | .ok _ => true
  | .error _ => false

/-- Rows of a successful select ([] for a failed one; only consulted after
qSuccess in the resolver, mirroring res.data guarded by !res.error). -/
def qRows : QueryResult → List Row
  | .ok rows => rows
  | .error _ => []

/-- Did the select fail with a missing-relation error? -/
def qMissingRelation : QueryResult → Bool
  | .ok _ => false
  | .error e => isMissingRelationError e

/-- The two candidate remote tables for the property domain. -/
inductive PropTable where
  | listings
  | properties
  deriving DecidableEq

/-- The property-table decision chain inside fetchAllData, as a function
of the listings select outcome and the legacy properties select outcome.
none means no branch fired, so the component state is left unchanged. -/
def resolveProperties (listingsRes legacyRes : QueryResult) :
    Option (PropTable × List Row) :=
  if qSuccess listingsRes && !(qRows listingsRes).isEmpty then
    some (.listings, qRows listingsRes)
  else if qSuccess legacyRes && !(qRows legacyRes).isEmpty then
    some (.properties, qRows legacyRes)
  else if qSuccess listingsRes then
    some (.listings, [])
  else if qMissingRelation listingsRes && qSuccess legacyRes then
    some (.properties, qRows legacyRes)
  else
    none

/-- The property table and collection after fetchAllData, starting from
the initial component state (propertyTable 'listings', properties []). -/
def applyPropertyResolution (listingsRes legacyRes : QueryResult) :
    PropTable × List Row :=
  (resolveProperties listingsRes legacyRes).getD (.listings, [])

/-- Partial<Lead> patch: each field present or absent (the id is never
patched by updateLead). -/
structure LeadPatch where
  name : Option JsVal
  email : Option JsVal
  phone : Option JsVal
  status : Option JsVal
  source : Option JsVal
  notes : Option JsVal
  lastContact : Option JsVal
  createdAt : Option JsVal
  deriving DecidableEq

/-- The object spread { ...l, ...data } applied to a lead and a patch. -/
def mergeLead (l : Lead) (p : LeadPatch) : Lead :=
  { id := l.id
    name := match p.name with | some v => some v | none => l.name
    email := match p.email with | some v => some v | none => l.email
    phone := (p.phone).getD l.phone
    status := (p.status).getD l.status
    source := (p.source).getD l.source
    notes := (p.notes).getD l.notes
    lastContact := (p.lastContact).getD l.lastContact
    createdAt := (p.createdAt).getD l.createdAt }

/-- addLead: the collection after the action, given the remote outcomes of
the primary and fallback insert and the previous collection.  The code
prepends the normalized returned row only when data is present and error
is null; any final error leaves the collection untouched. -/
def addLead (first second : WriteResult Row) (now : String)
    (prev : List Lead) : List Lead :=
  match (insertWithFallback first second).1 with
  | .ok row => mapLeadRow now row :: prev
  | .err _ => prev

/-- updateLead: on a final success the patch is merged into every lead
whose id matches; any final error leaves the collection untouched. -/
def updateLead (first second : Option SupaError) (id : JsVal)
    (patch : LeadPatch) (prev : List Lead) : List Lead :=
  match (updateWithFallback first second).1 with
  | none => prev.map (fun l => if l.id = some id then mergeLead l patch else l)
  | some _ => prev

/-- deleteLead: on success the id is filtered out; on error the collection
is untouched. -/
def deleteLead (res : Option SupaError) (id : JsVal)
    (prev : List Lead) : List Lead :=
  match res with
  | none => prev.filter (fun l => !(l.id = some id : Bool))
  | some _ => prev

/-- The updates object computed by toggleTaskComplete from the found task:
completed is flipped, and completedAt is the current time when completing
and undefined when un-completing. -/
def toggleUpdates (task : Task) (now : String) : Bool × Option JsVal :=
  (!task.completed, if !task.completed then some (.str now) else none)

/-- The object spread { ...t, ...updates } for the toggle updates (both
keys are explicitly present in updates, so both overwrite). -/
def applyToggleUpdates (t : Task) (u : Bool × Option JsVal) : Task :=
  { t with completed := u.1, completedAt := u.2 }

/-- toggleTaskComplete: no-op when no task has the id; otherwise the
updates derived from the found task are written via updateWithFallback
and merged into every matching task only on final success. -/
def toggleTaskComplete (first second : Option SupaError) (id : JsVal)
    (now : String) (tasks : List Task) : List Task :=
  match tasks.find? (fun t => t.id = some id) with
  | none => tasks
  | some task =>
    match (updateWithFallback first second).1 with
    | none => tasks.map (fun t =>
        if t.id = some id then applyToggleUpdates t (toggleUpdates task now) else t)
    | some _ => tasks

/-- Digit-sequence value of a string: the number formed by its digits in
order.  On the fixed-format "YYYY-MM-DD HH:MM" strings the App feeds to
parseSortableDate, this is strictly monotone in chronological order, so
it is an order-faithful model of new Date(s).getTime(). -/
def digitsVal (l : List Char) : Nat :=
  l.foldl (fun acc c => if c.isDigit then acc * 10 + (c.toNat - 48) else acc) 0

/-- Stringification of a row value inside a JS template literal. -/
def jsToString : JsVal → String
  | .str s => s
  | .boolv b => if b then "true" else "false"
  | .num n => toString n
  | .arr elems => String.intercalate "," elems

/-- Template stringification of a possibly-undefined value. -/
def jsTemplateOpt : Option JsVal → String
  | some v => jsToString v
  | none => "undefined"

/-- parseSortableDate applied to the event sort template
`${date} ${startTime}`: falsy (empty) input gives 0, otherwise the
order-model of Date parsing. -/
def eventSortKey (e : CalendarEvent) : Nat :=
  let l := (jsTemplateOpt e.date).data ++ ' ' :: (jsToString e.startTime).data
  if l = [] then 0 else digitsVal l

/-- The ascending order on sort keys used by the comparator
(a, b) => aKey - bKey of Array.prototype.sort. -/
def keyLe {α : Type} (key : α → Nat) (a b : α) : Prop := key a ≤ key b

instance {α : Type} (key : α → Nat) : DecidableRel (keyLe key) :=
  fun a b => Nat.decLe (key a) (key b)

instance {α : Type} (key : α → Nat) : IsTotal α (keyLe key) :=
  ⟨fun a b => Nat.le_total (key a) (key b)⟩

instance {α : Type} (key : α → Nat) : IsTrans α (keyLe key) :=
  ⟨fun _ _ _ => Nat.le_trans⟩

/-- Sort a list ascending by key (only the resulting order matters for the
claims about Array.prototype.sort with a numeric comparator). -/
def sortByKey {α : Type} (key : α → Nat) (l : List α) : List α :=
  l.insertionSort (keyLe key)

/-- Ascending-by-key check for a list. -/
def sortedByKey {α : Type} (key : α → Nat) (l : List α) : Bool :=
  decide (List.Sorted (keyLe key) l)

/-- The events branch of fetchAllData: normalize every row, then sort
ascending by the date + start-time key, and replace the collection. -/
def loadEvents (now : String) (rows : List Row) : List CalendarEvent :=
  sortByKey eventSortKey (rows.map (mapEventRow now))

/-- addEvent: on a final success of insertWithFallback the normalized
returned row is appended at the end of the collection
(setEvents(prev => [...prev, mapEventRow(newEvent)])); any final error
leaves the collection untouched. -/
def addEvent (first second : WriteResult Row) (now : String)
    (prev : List CalendarEvent) : List CalendarEvent :=
  match (insertWithFallback first second).1 with
  | .ok row => prev ++ [mapEventRow now row]
  | .err _ => prev

/-- The four application roles. -/
inductive UserRole where
  | admin
  | owner
  | maintenance
  | renter
  deriving DecidableEq

/-- The application views. -/
inductive ViewState where
  | dashboard
  | inbox
  | leads
  | properties
  | tasks
  | calendar
  | finance
  | reports
  | settings
  | tools
  deriving DecidableEq, Inhabited

/-- The per-role permitted-view lists (roleViews in the App). -/
def roleViews : UserRole → List ViewState
  | .admin => [.dashboard, .inbox, .leads, .properties, .tasks, .calendar,
      .finance, .reports, .settings, .tools]
  | .owner => [.dashboard, .properties, .finance, .inbox, .tasks, .calendar,
      .reports, .settings]
  | .maintenance => [.dashboard, .tasks, .calendar, .inbox, .settings]
  | .renter => [.dashboard, .properties, .calendar, .inbox, .settings]

/-- The role-gate effect: when the active view is not included in the
current role's list, the active view is set to the first entry of that
list; otherwise it is left unchanged. -/
def roleGate (role : UserRole) (activeView : ViewState) : ViewState :=
  if activeView ∈ roleViews role then activeView else (roleViews role).headI

/-- The trimmed lower-cased role string String(raw || '').trim()
.toLowerCase(); the raw metadata value is a string or null/undefined. -/
def roleKeyOf (raw : Option String) : List Char :=
  lowerList (trimList (jsStringOf raw).data)

/-- normalizeUserRole from the App. -/
def normalizeUserRole (raw : Option String) : UserRole :=
  let value := roleKeyOf raw
  if value = "admin".data ∨ value = "broker".data ∨ value = "agent".data then .admin
  else if value = "owner".data then .owner
  else if value = "maintenance".data ∨ value = "contractor".data then .maintenance
  else if value = "renter".data ∨ value = "tenant".data then .renter
  else .admin

/-- The profile part of AppSettings. -/
structure Profile where
  name : String
  email : String
  phone : String
  role : String
  deriving DecidableEq

/-- AppSettings (persisted locally). -/
structure AppSettings where
  profile : Profile
  notifyEmail : Bool
  notifyPush : Bool
  notifySms : Bool
  darkMode : Bool
  language : String
  timezone : String
  deriving DecidableEq

/-- defaultSettings from the App. -/
def defaultSettings : AppSettings :=
  { profile :=
    { name := "Laurent De Wilde"
      email := "laurent@eburon.com"
      phone := "+1 (555) 123-4567"
      role := "Broker" }
    notifyEmail := true
    notifyPush := true
    notifySms := false
    darkMode := false
    language := "en"
    timezone := "UTC" }

/-- The constant cache version and key names from the App. -/
def APP_CACHE_VERSION : String := "1"

/-- The localStorage key holding the persisted cache-version marker. -/
def APP_CACHE_VERSION_KEY : String := "eburon_cache_version"

/-- The named local cache keys cleared on a version mismatch. -/
def APP_CACHE_KEYS : List String := ["eburon_settings", "eburon_role"]

/-- localStorage model: an association list from keys to serialized
values (keys unique by construction of setItem/removeItem). -/
def LocalStore := List (String × String)

/-- window.localStorage.getItem. -/
def getItem : LocalStore → String → Option String
  | [], _ => none
  | (k, v) :: t, key => if k = key then some v else getItem t key

/-- window.localStorage.removeItem. -/
def removeItem : LocalStore → String → LocalStore
  | [], _ => []
  | (k, v) :: t, key =>
    if k = key then removeItem t key else (k, v) :: removeItem t key

/-- window.localStorage.setItem. -/
def setItem (st : LocalStore) (k v : String) : LocalStore :=
  (k, v) :: removeItem st k

/-- The App state touched by the cache-version guard.  settings and role
are the useLocalStorage-backed React state values; reloads counts how
many times triggerDataReload has fired (the code bumps the reload nonce,
which re-runs the data-fetch effect once per bump). -/
structure AppState where
  store : LocalStore
  settings : AppSettings
  role : UserRole
  activeView : ViewState
  sidebarOpen : Bool
  reloads : Nat

/-- clearAppCache from the App: remove the named cache keys, write the
version marker, and reset the app-owned cached state. -/
def clearAppCache (s : AppState) : AppState :=
  let store1 := APP_CACHE_KEYS.foldl removeItem s.store
  let store2 := setItem store1 APP_CACHE_VERSION_KEY APP_CACHE_VERSION
  { store := store2
    settings := defaultSettings
    role := .admin
    activeView := .dashboard
    sidebarOpen := false
    reloads := s.reloads }

/-- triggerDataReload: forces the Entity Store to reload from the remote
store exactly once. -/
def triggerDataReload (s : AppState) : AppState :=
  { s with reloads := s.reloads + 1 }

/-- The one-time cache version check effect: on a marker mismatch it runs
clearAppCache and then triggerDataReload; on a match it does nothing. -/
def checkCacheVersion (s : AppState) : AppState :=
  if getItem s.store APP_CACHE_VERSION_KEY ≠ some APP_CACHE_VERSION then
    triggerDataReload (clearAppCache s)
  else
    s

/-- A value assignment for the logical fields of a lead row, used to build
semantically-equivalent rows under the different key casings. -/
structure LeadRowFields where
  id : Option JsVal
  name : Option JsVal
  email : Option JsVal
  phone : Option JsVal
  status : Option JsVal
  source : Option JsVal
  notes : Option JsVal
  lastContact : Option JsVal
  createdAt : Option JsVal
  deriving DecidableEq

/-- The lead row carrying its multi-word fields under camel-case keys. -/
def camelLeadRow (f : LeadRowFields) : Row := fun k =>
  if k = "id" then f.id
  else if k = "name" then f.name
  else if k = "email" then f.email
  else if k = "phone" then f.phone
  else if k = "status" then f.status
  else if k = "source" then f.source
  else if k = "notes" then f.notes
  else if k = "lastContact" then f.lastContact
  else if k = "createdAt" then f.createdAt
  else none

/-- The same lead row under lower-case-concatenated keys. -/
def lowerLeadRow (f : LeadRowFields) : Row := fun k =>
  if k = "id" then f.id
  else if k = "name" then f.name
  else if k = "email" then f.email
  else if k = "phone" then f.phone
  else if k = "status" then f.status
  else if k = "source" then f.source
  else if k = "notes" then f.notes
  else if k = "lastcontact" then f.lastContact
  else if k = "createdat" then f.createdAt
  else none

/-- The same lead row under snake_case keys. -/
def snakeLeadRow (f : LeadRowFields) : Row := fun k =>
  if k = "id" then f.id
  else if k = "name" then f.name
  else if k = "email" then f.email
  else if k = "phone" then f.phone
  else if k = "status" then f.status
  else if k = "source" then f.source
  else if k = "notes" then f.notes
  else if k = "last_contact" then f.lastContact
  else if k = "created_at" then f.createdAt
  else none

/-- A value assignment for the logical fields of a task row. -/
structure TaskRowFields where
  id : Option JsVal
  title : Option JsVal
  description : Option JsVal
  dueDate : Option JsVal
  priority : Option JsVal
  category : Option JsVal
  completed : Option JsVal
  completedAt : Option JsVal
  createdAt : Option JsVal
  deriving DecidableEq

/-- The task row under camel-case keys. -/
def camelTaskRow (f : TaskRowFields) : Row := fun k =>
  if k = "id" then f.id
  else if k = "title" then f.title
  else if k = "description" then f.description
  else if k = "dueDate" then f.dueDate
  else if k = "priority" then f.priority
  else if k = "category" then f.category
  else if k = "completed" then f.completed
  else if k = "completedAt" then f.completedAt
  else if k = "createdAt" then f.createdAt
  else none

/-- The task row under lower-case-concatenated keys. -/
def lowerTaskRow (f : TaskRowFields) : Row := fun k =>
  if k = "id" then f.id
  else if k = "title" then f.title
  else if k = "description" then f.description
  else if k = "duedate" then f.dueDate
  else if k = "priority" then f.priority
  else if k = "category" then f.category
  else if k = "completed" then f.completed
  else if k = "completedat" then f.completedAt
  else if k = "createdat" then f.createdAt
  else none

/-- The task row under snake_case keys. -/
def snakeTaskRow (f : TaskRowFields) : Row := fun k =>
  if k = "id" then f.id
  else if k = "title" then f.title
  else if k = "description" then f.description
  else if k = "due_date" then f.dueDate
  else if k = "priority" then f.priority
  else if k = "category" then f.category
  else if k = "completed" then f.completed
  else if k = "completed_at" then f.completedAt
  else if k = "created_at" then f.createdAt
  else none

/-- A value assignment for the logical fields of an event row. -/
structure EventRowFields where
  id : Option JsVal
  title : Option JsVal
  description : Option JsVal
  date : Option JsVal
  startTime : Option JsVal
  endTime : Option JsVal
  color : Option JsVal
  duration : Option JsVal
  createdAt : Option JsVal
  deriving DecidableEq

/-- The event row under camel-case keys. -/
def camelEventRow (f : EventRowFields) : Row := fun k =>
  if k = "id" then f.id
  else if k = "title" then f.title
  else if k = "description" then f.description
  else if k = "date" then f.date
  else if k = "startTime" then f.startTime
  else if k = "endTime" then f.endTime
  else if k = "color" then f.color
  else if k = "duration" then f.duration
  else if k = "createdAt" then f.createdAt
  else none

/-- The event row under lower-case-concatenated keys. -/
def lowerEventRow (f : EventRowFields) : Row := fun k =>
  if k = "id" then f.id
  else if k = "title" then f.title
  else if k = "description" then f.description
  else if k = "date" then f.date
  else if k = "starttime" then f.startTime
  else if k = "endtime" then f.endTime
  else if k = "color" then f.color
  else if k = "duration" then f.duration
  else if k = "createdat" then f.createdAt
  else none

/-- The event row under snake_case keys. -/
def snakeEventRow (f : EventRowFields) : Row := fun k =>
  if k = "id" then f.id
  else if k = "title" then f.title
  else if k = "description" then f.description
  else if k = "date" then f.date
  else if k = "start_time" then f.startTime
  else if k = "end_time" then f.endTime
  else if k = "color" then f.color
  else if k = "duration" then f.duration
  else if k = "created_at" then f.createdAt
  else none

/-- A value assignment for the logical fields of a transaction row. -/
structure TxRowFields where
  id : Option JsVal
  date : Option JsVal
  description : Option JsVal
  type : Option JsVal
  category : Option JsVal
  amount : Option JsVal
  method : Option JsVal
  reference : Option JsVal
  createdAt : Option JsVal
  deriving DecidableEq

/-- The transaction row under camel-case keys. -/
def camelTxRow (f : TxRowFields) : Row := fun k =>
  if k = "id" then f.id
  else if k = "date" then f.date
  else if k = "description" then f.description
  else if k = "type" then f.type
  else if k = "category" then f.category
  else if k = "amount" then f.amount
  else if k = "method" then f.method
  else if k = "reference" then f.reference
  else if k = "createdAt" then f.createdAt
  else none

/-- The transaction row under lower-case-concatenated keys. -/
def lowerTxRow (f : TxRowFields) : Row := fun k =>
  if k = "id" then f.id
  else if k = "date" then f.date
  else if k = "description" then f.description
  else if k = "type" then f.type
  else if k = "category" then f.category
  else if k = "amount" then f.amount
  else if k = "method" then f.method
  else if k = "reference" then f.reference
  else if k = "createdat" then f.createdAt
  else none

/-- The transaction row under snake_case keys. -/
def snakeTxRow (f : TxRowFields) : Row := fun k =>
  if k = "id" then f.id
  else if k = "date" then f.date
  else if k = "description" then f.description
  else if k = "type" then f.type
  else if k = "category" then f.category
  else if k = "amount" then f.amount
  else if k = "method" then f.method
  else if k = "reference" then f.reference
  else if k = "created_at" then f.createdAt
  else none

/-- A value assignment for the logical fields of a listing/property row. -/
structure ListingRowFields where
  id : Option JsVal
  name : Option JsVal
  address : Option JsVal
  price : Option JsVal
  type : Option JsVal
  bedrooms : Option JsVal
  bathrooms : Option JsVal
  size : Option JsVal
  status : Option JsVal
  images : Option JsVal
  energyClass : Option JsVal
  petsAllowed : Option JsVal
  coordinates : Option JsVal
  createdAt : Option JsVal
  deriving DecidableEq

/-- The property row under camel-case keys (legacy images key). -/
def camelListingRow (f : ListingRowFields) : Row := fun k =>
  if k = "id" then f.id
  else if k = "name" then f.name
  else if k = "address" then f.address
  else if k = "price" then f.price
  else if k = "type" then f.type
  else if k = "bedrooms" then f.bedrooms
  else if k = "bathrooms" then f.bathrooms
  else if k = "size" then f.size
  else if k = "status" then f.status
  else if k = "images" then f.images
  else if k = "energyClass" then f.energyClass
  else if k = "petsAllowed" then f.petsAllowed
  else if k = "coordinates" then f.coordinates
  else if k = "createdAt" then f.createdAt
  else none

/-- The property row under snake_case keys (current listings table shape:
image_urls, energy_class, pets_allowed, created_at). -/
def snakeListingRow (f : ListingRowFields) : Row := fun k =>
  if k = "id" then f.id
  else if k = "name" then f.name
  else if k = "address" then f.address
  else if k = "price" then f.price
  else if k = "type" then f.type
  else if k = "bedrooms" then f.bedrooms
  else if k = "bathrooms" then f.bathrooms
  else if k = "size" then f.size
  else if k = "status" then f.status
  else if k = "image_urls" then f.images
  else if k = "energy_class" then f.energyClass
  else if k = "pets_allowed" then f.petsAllowed
  else if k = "coordinates" then f.coordinates
  else if k = "created_at" then f.createdAt
  else none

/-- Truthiness proviso for an optional field value: absent, or present
and truthy.  A present falsy value (the empty string) can land in
different canonical fields depending on where a default-less || chain
ends, so the Task equivalence below assumes it for completedAt. -/
def optTruthy : Option JsVal → Bool
  | none => true
  | some v => v.truthy

/-- Resolution of one canonical field per the specification sentence: the
camel-case key is checked first, then the lower-case-concatenated key,
then the snake_case key (presence-based reading of the claim, used to
exhibit where the code deviates). -/
def specFieldResolve (row : Row) (camelKey lowerKey snakeKey : String) :
    Option JsVal :=
  jsNullishOpt (row camelKey) (jsNullishOpt (row lowerKey) (row snakeKey))

/-- Classification of a write error per the claim sentence for C4: the
substring checks are applied to the lower-cased message and to the
lower-cased details ("schema cache"/"could not find" combined with
"column", or "column" with "does not exist"). -/
def schemaCacheMissClaimC4 (e : SupaError) : Bool :=
  let hit := fun (l : List Char) =>
    ((containsSub "schema cache".data l || containsSub "could not find".data l)
      && containsSub "column".data l)
    || (containsSub "column".data l && containsSub "does not exist".data l)
  hit (lowerField e.message) || hit (lowerField e.details)

/-- Classification per the amended claim for C4: the same substring checks
as the code applies, on the lower-cased message only. -/
def schemaCacheMissAmended (msg : List Char) : Bool :=
  (containsSub "schema cache".data msg && containsSub "could not find".data msg)
  || (containsSub "column".data msg && containsSub "does not exist".data msg)
  || (containsSub "could not find".data msg && containsSub "column".data msg)

/-- A concrete task row carrying only a snake_case completion timestamp
and no completed flag. -/
def c2Row : Row := fun k =>
  if k = "id" then some (.str "t1")
  else if k = "title" then some (.str "Fix sink")
  else if k = "completed_at" then some (.str "2024-05-01T00:00:00.000Z")
  else none

/-- A concrete remote error whose message is empty and whose details
carry the schema-cache wording. -/
def c4Err : SupaError :=
  { message := none
    details := some "Could not find the foo column of leads in the schema cache" }

/-- A concrete error message that the code classifies as schema-cache-miss. -/
def schemaErr : SupaError :=
  { message := some "Could not find the lastContact column of leads in the schema cache"
    details := none }

/-- A concrete error that is in no recognized class. -/
def plainErr : SupaError :=
  { message := some "permission denied for table leads"
    details := none }

/-- A second unclassified concrete error. -/
def plainErr2 : SupaError :=
  { message := some "duplicate key value violates unique constraint"
    details := none }

/-- A concrete missing-relation error. -/
def missingRelErr : SupaError :=
  { message := some "relation public.listings does not exist"
    details := none }

/-- A concrete property row that carries both casings of the energy-class
column with different values. -/
def c6Row : Row := fun k =>
  if k = "id" then some (.str "p1")
  else if k = "energyClass" then some (.str "A")
  else if k = "energy_class" then some (.str "B")
  else none

/-- A concrete calendar event dated late, for the ordering counterexample. -/
def evLate : CalendarEvent :=
  { id := some (.str "e1")
    title := some (.str "Viewing")
    description := .str ""
    date := some (.str "2024-05-01")
    startTime := .str "10:00"
    endTime := .str "11:00"
    color := .str "blue"
    duration := .str "60m"
    createdAt := .str "2024-04-01T00:00:00.000Z" }

/-- A concrete returned insert row for an event dated earlier than evLate. -/
def earlyEventRow : Row := fun k =>
  if k = "id" then some (.str "e2")
  else if k = "title" then some (.str "Call")
  else if k = "date" then some (.str "2024-01-01")
  else if k = "startTime" then some (.str "09:00")
  else if k = "endTime" then some (.str "09:30")
  else none

/-- A concrete returned insert row for an event dated later than evLate. -/
def lateEventRow : Row := fun k =>
  if k = "id" then some (.str "e3")
  else if k = "title" then some (.str "Inspection")
  else if k = "date" then some (.str "2024-07-01")
  else if k = "startTime" then some (.str "14:00")
  else if k = "endTime" then some (.str "15:00")
  else none

/-- A concrete lead collection used by witnesses. -/
def sampleLead : Lead :=
  { id := some (.str "l1")
    name := some (.str "Ada")
    email := some (.str "ada@example.com")
    phone := .str ""
    status := .str "new"
    source := .str ""
    notes := .str ""
    lastContact := .str "2024-01-01T00:00:00.000Z"
    createdAt := .str "2024-01-01T00:00:00.000Z" }

/-- A concrete task collection used by witnesses. -/
def sampleTask : Task :=
  { id := some (.str "t9")
    title := some (.str "Paint fence")
    description := .str ""
    dueDate := .str "2024-06-01T00:00:00.000Z"
    priority := .str "medium"
    category := .str "General"
    completed := false
    completedAt := none
    createdAt := .str "2024-05-01T00:00:00.000Z" }

/-- An empty lead patch used by witnesses. -/
def emptyLeadPatch : LeadPatch :=
  { name := none, email := none, phone := none, status := none
    source := none, notes := none, lastContact := none, createdAt := none }

/-- A concrete row collection for the table-resolver witness. -/
def sampleListingRow : Row := fun k =>
  if k = "id" then some (.str "p7")
  else if k = "name" then some (.str "Villa Rosa")
  else if k = "address" then some (.str "1 Main St")
  else none

/-- A concrete app state with a stale cache-version marker. -/
def staleState : AppState :=
  { store := [("eburon_cache_version", "0"), ("eburon_settings", "junk"),
      ("eburon_role", "owner")]
    settings :=
      { profile := { name := "X", email := "x@y.z", phone := "", role := "Renter" }
        notifyEmail := false, notifyPush := false, notifySms := true
        darkMode := true, language := "nl", timezone := "CET" }
    role := .owner
    activeView := .finance
    sidebarOpen := true
    reloads := 0 }

/-! Helper lemmas about the JS fallback operators. -/

@[simp]
theorem jsOr_none_left (b : Option JsVal) : jsOr none b = b := rfl

@[simp]
theorem jsOrDefault_none (d : JsVal) : jsOrDefault none d = d := rfl

@[simp]
theorem jsOrDefault_jsOr (a b : Option JsVal) (d : JsVal) :
    jsOrDefault (jsOr a b) d = jsOrDefault a (jsOrDefault b d) := by
  cases a with
  | none => rfl
  | some v =>
    by_cases h : v.truthy
    · simp [jsOr, jsOrDefault, h]
    · simp [jsOr, jsOrDefault, h]

@[simp]
theorem jsNullishOpt_none_left (b : Option JsVal) : jsNullishOpt none b = b := rfl

@[simp]
theorem jsNullishOpt_none_right (a : Option JsVal) : jsNullishOpt a none = a := by
  cases a <;> rfl

theorem jsOr_none_right_of_optTruthy {a : Option JsVal}
    (h : optTruthy a = true) : jsOr a none = a := by
  cases a with
  | none => rfl
  | some v => simp [optTruthy] at h; simp [jsOr, h]

/-- C1: for every insert or update routed through the fallback write
executor, a successful first write means exactly one remote call whose
result is returned; a first failure classified schema-cache-miss means
exactly one retry whose outcome (success or failure) is final; any other
first failure means exactly one call returning that error; and at most
two remote write calls occur in every case. -/
theorem c1_fallback_write_executor (α : Type) (first second : WriteResult α)
    (fu su : Option SupaError) :
    (∀ a, first = .ok a → insertWithFallback first second = (.ok a, 1))
  ∧ (∀ e, first = .err e → isSchemaCacheColumnError e = true →
      insertWithFallback first second = (second, 2))
  ∧ (∀ e, first = .err e → isSchemaCacheColumnError e = false →
      insertWithFallback first second = (.err e, 1))
  ∧ (insertWithFallback first second).2 ≤ 2
  ∧ (fu = none → updateWithFallback fu su = (none, 1))
  ∧ (∀ e, fu = some e → isSchemaCacheColumnError e = true →
      updateWithFallback fu su = (su, 2))
  ∧ (∀ e, fu = some e → isSchemaCacheColumnError e = false →
      updateWithFallback fu su = (some e, 1))
  ∧ (updateWithFallback fu su).2 ≤ 2 := by
  refine ⟨?_, ?_, ?_, ?_, ?_, ?_, ?_, ?_⟩
  · intro a h; subst h; rfl
  · intro e h hc; subst h; simp [insertWithFallback, hc]
  · intro e h hc; subst h; simp [insertWithFallback, hc]
  · cases first with
    | ok a => simp [insertWithFallback]
    | err e => simp [insertWithFallback]; split <;> simp
  · intro h; subst h; rfl
  · intro e h hc; subst h; simp [updateWithFallback, hc]
  · intro e h hc; subst h; simp [updateWithFallback, hc]
  · cases fu with
    | none => simp [updateWithFallback]
    | some e => simp [updateWithFallback]; split <;> simp

/-- Witness for C1: a primary insert failing with a schema-cache-miss and
a succeeding fallback give exactly two calls returning the second result;
an unclassified primary error gives exactly one call returning it; an
update retry propagates the fallback success. -/
theorem c1_witness :
    insertWithFallback (.err schemaErr) (.ok (0 : Nat)) = (.ok 0, 2)
  ∧ insertWithFallback (.err plainErr) (.ok (0 : Nat)) = (.err plainErr, 1)
  ∧ updateWithFallback (some schemaErr) none = (none, 2) := by
  refine ⟨?_, ?_, ?_⟩
  · exact (c1_fallback_write_executor Nat (.err schemaErr) (.ok 0) none none).2.1
      schemaErr rfl (by decide)
  · exact (c1_fallback_write_executor Nat (.err plainErr) (.ok 0) none none).2.2.1
      plainErr rfl (by decide)
  · exact (c1_fallback_write_executor Nat (.ok 0) (.ok 0) (some schemaErr)
      none).2.2.2.2.2.1 schemaErr rfl (by decide)

/-- Counterexample for C4: an error whose message is empty but whose
details carry the schema-cache wording is not classified by the code
(isSchemaCacheColumnError reads only the message), while the claimed
classification over message and details would accept it. -/
theorem c4_counterexample :
    isSchemaCacheColumnError c4Err = false ∧ schemaCacheMissClaimC4 c4Err = true := by
  decide

/-- C4 (amended): a remote write error is classified as schema-cache-miss
exactly when substring checks on the lower-cased message alone find
"schema cache" with "could not find", or "column" with "does not exist",
or "could not find" with "column"; the details field is never consulted. -/
theorem c4_schema_cache_classification (e : SupaError) :
    isSchemaCacheColumnError e = schemaCacheMissAmended (lowerField e.message)
  ∧ (∀ d : Option String,
      isSchemaCacheColumnError { message := e.message, details := d } =
        isSchemaCacheColumnError e) := by
  exact ⟨rfl, fun _ => rfl⟩

/-- Counterexample for C2: a row carrying only a snake_case completion
timestamp and no completed flag is normalized by mapTaskRow to a record
with completed = false but completedAt defined, violating the claimed
invariant. -/
theorem c2_counterexample :
    taskInvariant (mapTaskRow "2024-06-01T00:00:00.000Z" c2Row) = false
  ∧ (mapTaskRow "2024-06-01T00:00:00.000Z" c2Row).completed = false
  ∧ (mapTaskRow "2024-06-01T00:00:00.000Z" c2Row).completedAt
      = some (.str "2024-05-01T00:00:00.000Z") := by
  decide

/-- The record produced by merging the toggle updates always satisfies the
completed/completedAt invariant. -/
theorem toggle_merge_invariant (t task : Task) (now : String) :
    taskInvariant (applyToggleUpdates t (toggleUpdates task now)) = true := by
  by_cases h : task.completed <;>
    simp [taskInvariant, applyToggleUpdates, toggleUpdates, h]

/-- C2 (amended): mapTaskRow copies completed and completedAt from the row
independently and does not enforce the invariant; the records produced by
the toggleTaskComplete update, however, always satisfy completed = true
iff completedAt defined, and after a successful toggle every task in the
collection either was already there or satisfies the invariant. -/
theorem c2_toggle_completion_invariant :
    (∀ (t task : Task) (now : String),
      taskInvariant (applyToggleUpdates t (toggleUpdates task now)) = true)
  ∧ (∀ (fu su : Option SupaError) (id : JsVal) (now : String)
      (tasks : List Task) (t : Task),
      (updateWithFallback fu su).1 = none →
      t ∈ toggleTaskComplete fu su id now tasks →
      t ∈ tasks ∨ taskInvariant t = true) := by
  constructor
  · exact toggle_merge_invariant
  · intro fu su id now tasks t hupd hmem
    cases hfind : tasks.find? (fun x => x.id = some id) with
    | none =>
      simp only [toggleTaskComplete, hfind] at hmem
      exact Or.inl hmem
    | some task =>
      simp only [toggleTaskComplete, hfind, hupd] at hmem
      rcases List.mem_map.mp hmem with ⟨a, ha, rfl⟩
      by_cases hid : a.id = some id
      · simp only [hid, if_true]
        exact Or.inr (toggle_merge_invariant a task now)
      · simp only [hid, if_false]
        exact Or.inl ha

/-- Witness for C2 (amended): toggling the sample (uncompleted) task
produces a record satisfying the invariant, and the member of the
post-toggle collection is covered by the theorem. -/
theorem c2_witness :
    taskInvariant (applyToggleUpdates sampleTask
      (toggleUpdates sampleTask "2024-06-02T00:00:00.000Z")) = true
  ∧ (applyToggleUpdates sampleTask
        (toggleUpdates sampleTask "2024-06-02T00:00:00.000Z") ∈ [sampleTask]
      ∨ taskInvariant (applyToggleUpdates sampleTask
          (toggleUpdates sampleTask "2024-06-02T00:00:00.000Z")) = true) := by
  refine ⟨c2_toggle_completion_invariant.1 sampleTask sampleTask _, ?_⟩
  exact c2_toggle_completion_invariant.2 none none (.str "t9")
    "2024-06-02T00:00:00.000Z" [sampleTask] _ rfl (by decide)

/-- C3: the property table is resolved by the priority order: listings
succeeding non-empty selects listings with its rows; otherwise a
properties query succeeding non-empty selects properties; otherwise a
listings success with zero rows selects listings empty; otherwise a
missing-relation failure of listings with a properties success (even
empty) selects properties; and when both queries fail for reasons other
than missing-relation, no branch fires and the collection stays empty. -/
theorem c3_table_resolver (lRes pRes : QueryResult) :
    (∀ rows, lRes = .ok rows → rows ≠ [] →
      applyPropertyResolution lRes pRes = (.listings, rows))
  ∧ (∀ rows, (qSuccess lRes = false ∨ qRows lRes = []) → pRes = .ok rows →
      rows ≠ [] → applyPropertyResolution lRes pRes = (.properties, rows))
  ∧ (lRes = .ok [] → (qSuccess pRes = false ∨ qRows pRes = []) →
      applyPropertyResolution lRes pRes = (.listings, []))
  ∧ (∀ e rows, lRes = .error e → isMissingRelationError e = true →
      pRes = .ok rows → applyPropertyResolution lRes pRes = (.properties, rows))
  ∧ (∀ e1 e2, lRes = .error e1 → pRes = .error e2 →
      isMissingRelationError e1 = false → isMissingRelationError e2 = false →
      resolveProperties lRes pRes = none
      ∧ applyPropertyResolution lRes pRes = (.listings, [])) := by
  refine ⟨?_, ?_, ?_, ?_, ?_⟩
  · intro rows hl hne
    subst hl
    cases rows with
    | nil => exact absurd rfl hne
    | cons r rs =>
      simp [applyPropertyResolution, resolveProperties, qSuccess, qRows]
  · intro rows hfail hp hne
    subst hp
    cases rows with
    | nil => exact absurd rfl hne
    | cons r rs =>
      rcases hfail with h | h
      · cases lRes with
        | ok lrows => simp [qSuccess] at h
        | error e =>
          simp [applyPropertyResolution, resolveProperties, qSuccess, qRows]
      · cases lRes with
        | ok lrows =>
          simp [qRows] at h
          subst h
          simp [applyPropertyResolution, resolveProperties, qSuccess, qRows]
        | error e =>
          simp [applyPropertyResolution, resolveProperties, qSuccess, qRows]
  · intro hl hp
    subst hl
    rcases hp with h | h
    · cases pRes with
      | ok prows => simp [qSuccess] at h
      | error e =>
        simp [applyPropertyResolution, resolveProperties, qSuccess, qRows]
    · cases pRes with
      | ok prows =>
        simp [qRows] at h
        subst h
        simp [applyPropertyResolution, resolveProperties, qSuccess, qRows]
      | error e =>
        simp [applyPropertyResolution, resolveProperties, qSuccess, qRows]
  · intro e rows hl hmr hp
    subst hl
    subst hp
    cases rows with
    | nil =>
      simp [applyPropertyResolution, resolveProperties, qSuccess, qRows,
        qMissingRelation, hmr]
    | cons r rs =>
      simp [applyPropertyResolution, resolveProperties, qSuccess, qRows]
  · intro e1 e2 hl hp hm1 hm2
    subst hl
    subst hp
    constructor
    · simp [resolveProperties, qSuccess, qRows, qMissingRelation, hm1]
    · simp [applyPropertyResolution, resolveProperties, qSuccess, qRows,
        qMissingRelation, hm1]

/-- Witness for C3: a non-empty listings result wins; an empty listings
result with a non-empty legacy result selects properties; two
unclassified failures leave the collection empty. -/
theorem c3_witness :
    applyPropertyResolution (.ok [sampleListingRow]) (.error plainErr)
      = (.listings, [sampleListingRow])
  ∧ applyPropertyResolution (.ok []) (.ok [sampleListingRow])
      = (.properties, [sampleListingRow])
  ∧ applyPropertyResolution (.error plainErr) (.error plainErr2)
      = (.listings, []) := by
  refine ⟨?_, ?_, ?_⟩
  · exact (c3_table_resolver (.ok [sampleListingRow]) (.error plainErr)).1
      [sampleListingRow] rfl (List.cons_ne_nil _ _)
  · exact (c3_table_resolver (.ok []) (.ok [sampleListingRow])).2.1
      [sampleListingRow] (Or.inr rfl) rfl (List.cons_ne_nil _ _)
  · exact ((c3_table_resolver (.error plainErr) (.error plainErr2)).2.2.2.2
      plainErr plainErr2 rfl rfl (by decide) (by decide)).2

/-- C5: whenever the final remote outcome of an entity-store mutation is
an error (including a schema-cache-miss primary failure followed by a
failing fallback, where the second error is the final result), the
in-memory collection is left completely unchanged. -/
theorem c5_mutations_error_leave_collections (first second : WriteResult Row)
    (fu su dres : Option SupaError) (id : JsVal) (patch : LeadPatch)
    (now : String) (leads : List Lead) (tasks : List Task) :
    (∀ e, (insertWithFallback first second).1 = .err e →
      addLead first second now leads = leads)
  ∧ (∀ e, (updateWithFallback fu su).1 = some e →
      updateLead fu su id patch leads = leads)
  ∧ (∀ e, dres = some e → deleteLead dres id leads = leads)
  ∧ (∀ e, (updateWithFallback fu su).1 = some e →
      toggleTaskComplete fu su id now tasks = tasks)
  ∧ (∀ e1 e2, isSchemaCacheColumnError e1 = true →
      ((insertWithFallback (WriteResult.err e1) (.err e2) : WriteResult Row × Nat).1
        = .err e2)
      ∧ addEvent (.err e1) (.err e2) now [] = []
      ∧ addLead (.err e1) (.err e2) now leads = leads) := by
  refine ⟨?_, ?_, ?_, ?_, ?_⟩
  · intro e h
    simp only [addLead, h]
  · intro e h
    simp only [updateLead, h]
  · intro e h
    simp only [deleteLead, h]
  · intro e h
    cases hfind : tasks.find? (fun x => x.id = some id) with
    | none => simp only [toggleTaskComplete, hfind]
    | some task => simp only [toggleTaskComplete, hfind, h]
  · intro e1 e2 h1
    refine ⟨?_, ?_, ?_⟩
    · simp [insertWithFallback, h1]
    · simp [addEvent, insertWithFallback, h1]
    · simp [addLead, insertWithFallback, h1]

/-- Witness for C5: with a schema-cache-miss primary error and an
unclassified fallback error, add leaves the lead collection unchanged;
failing update, delete and toggle outcomes leave the collections
unchanged as well. -/
theorem c5_witness :
    addLead (.err schemaErr) (.err plainErr) "2024-06-01T00:00:00.000Z"
      [sampleLead] = [sampleLead]
  ∧ updateLead (some plainErr) none (.str "l1") emptyLeadPatch [sampleLead]
      = [sampleLead]
  ∧ deleteLead (some plainErr) (.str "l1") [sampleLead] = [sampleLead]
  ∧ toggleTaskComplete (some plainErr) none (.str "t9")
      "2024-06-01T00:00:00.000Z" [sampleTask] = [sampleTask] := by
  refine ⟨?_, ?_, ?_, ?_⟩
  · exact ((c5_mutations_error_leave_collections (.err schemaErr) (.err plainErr)
      (some plainErr) none (some plainErr) (.str "l1") emptyLeadPatch
      "2024-06-01T00:00:00.000Z" [sampleLead] [sampleTask]).2.2.2.2
      schemaErr plainErr (by decide)).2.2
  · exact (c5_mutations_error_leave_collections (.err schemaErr) (.err plainErr)
      (some plainErr) none (some plainErr) (.str "l1") emptyLeadPatch
      "2024-06-01T00:00:00.000Z" [sampleLead] [sampleTask]).2.1
      plainErr (by decide)
  · exact (c5_mutations_error_leave_collections (.err schemaErr) (.err plainErr)
      (some plainErr) none (some plainErr) (.str "l1") emptyLeadPatch
      "2024-06-01T00:00:00.000Z" [sampleLead] [sampleTask]).2.2.1
      plainErr rfl
  · exact (c5_mutations_error_leave_collections (.err schemaErr) (.err plainErr)
      (some plainErr) none (some plainErr) (.str "t9") emptyLeadPatch
      "2024-06-01T00:00:00.000Z" [sampleLead] [sampleTask]).2.2.2.1
      plainErr (by decide)

/-- Counterexample for C6: on a row carrying both casings of the
energy-class column, mapListingToProperty resolves the snake_case key
first (row.energy_class ?? row.energyClass), while the claimed resolution
order (camel-case key first, then lower-case, then snake_case) would give
the camel-case value. -/
theorem c6_counterexample :
    (mapListingToProperty "2024-06-01T00:00:00.000Z" c6Row).energyClass
      = some (.str "B")
  ∧ specFieldResolve c6Row "energyClass" "energyclass" "energy_class"
      = some (.str "A")
  ∧ (mapListingToProperty "2024-06-01T00:00:00.000Z" c6Row).energyClass
      ≠ specFieldResolve c6Row "energyClass" "energyclass" "energy_class" := by
  decide

/-- C6 (amended): for semantically-equivalent rows under camel-case,
lower-case-concatenated and snake_case keys with equal values, the five
normalizers produce field-for-field identical records — with two caveats
forced by the code: Property resolves energyClass and petsAllowed
snake_case-first (and has no lower-case-concatenated variant for them, so
Property is compared camel vs snake), and a present Task completedAt
value must be truthy, because that default-less || chain returns its last
operand raw. -/
theorem c6_normalizer_casing_equivalence
    (lf : LeadRowFields) (tf : TaskRowFields) (ef : EventRowFields)
    (xf : TxRowFields) (pf : ListingRowFields) (now : String)
    (hT : optTruthy tf.completedAt = true) :
    mapLeadRow now (camelLeadRow lf) = mapLeadRow now (lowerLeadRow lf)
  ∧ mapLeadRow now (camelLeadRow lf) = mapLeadRow now (snakeLeadRow lf)
  ∧ mapTaskRow now (camelTaskRow tf) = mapTaskRow now (lowerTaskRow tf)
  ∧ mapTaskRow now (camelTaskRow tf) = mapTaskRow now (snakeTaskRow tf)
  ∧ mapEventRow now (camelEventRow ef) = mapEventRow now (lowerEventRow ef)
  ∧ mapEventRow now (camelEventRow ef) = mapEventRow now (snakeEventRow ef)
  ∧ mapTransactionRow now (camelTxRow xf) = mapTransactionRow now (lowerTxRow xf)
  ∧ mapTransactionRow now (camelTxRow xf) = mapTransactionRow now (snakeTxRow xf)
  ∧ mapListingToProperty now (camelListingRow pf)
      = mapListingToProperty now (snakeListingRow pf) := by
  refine ⟨?_, ?_, ?_, ?_, ?_, ?_, ?_, ?_, ?_⟩ <;>
    simp [mapLeadRow, mapTaskRow, mapEventRow, mapTransactionRow,
      mapListingToProperty, camelLeadRow, lowerLeadRow, snakeLeadRow,
      camelTaskRow, lowerTaskRow, snakeTaskRow, camelEventRow, lowerEventRow,
      snakeEventRow, camelTxRow, lowerTxRow, snakeTxRow, camelListingRow,
      snakeListingRow, jsOr_none_right_of_optTruthy hT]

/-- Witness for C6 (amended): a concrete task field assignment with a
truthy completion timestamp yields identical records under all three
casings. -/
theorem c6_witness :
    mapTaskRow "2024-06-01T00:00:00.000Z" (camelTaskRow
      { id := some (.str "t1"), title := some (.str "T"),
        description := some (.str "d"), dueDate := some (.str "2024-07-01"),
        priority := some (.str "high"), category := some (.str "General"),
        completed := some (.boolv true),
        completedAt := some (.str "2024-06-15T00:00:00.000Z"),
        createdAt := some (.str "2024-06-01T00:00:00.000Z") })
    = mapTaskRow "2024-06-01T00:00:00.000Z" (snakeTaskRow
      { id := some (.str "t1"), title := some (.str "T"),
        description := some (.str "d"), dueDate := some (.str "2024-07-01"),
        priority := some (.str "high"), category := some (.str "General"),
        completed := some (.boolv true),
        completedAt := some (.str "2024-06-15T00:00:00.000Z"),
        createdAt := some (.str "2024-06-01T00:00:00.000Z") }) := by
  exact (c6_normalizer_casing_equivalence
    { id := none, name := none, email := none, phone := none, status := none,
      source := none, notes := none, lastContact := none, createdAt := none }
    { id := some (.str "t1"), title := some (.str "T"),
      description := some (.str "d"), dueDate := some (.str "2024-07-01"),
      priority := some (.str "high"), category := some (.str "General"),
      completed := some (.boolv true),
      completedAt := some (.str "2024-06-15T00:00:00.000Z"),
      createdAt := some (.str "2024-06-01T00:00:00.000Z") }
    { id := none, title := none, description := none, date := none,
      startTime := none, endTime := none, color := none, duration := none,
      createdAt := none }
    { id := none, date := none, description := none, type := none,
      category := none, amount := none, method := none, reference := none,
      createdAt := none }
    { id := none, name := none, address := none, price := none, type := none,
      bedrooms := none, bathrooms := none, size := none, status := none,
      images := none, energyClass := none, petsAllowed := none,
      coordinates := none, createdAt := none }
    "2024-06-01T00:00:00.000Z" (by decide)).2.2.2.1

/-- C7: after every gate evaluation the active view belongs to the
permitted-view set of the current role, a view outside the role's list is
deterministically redirected to the first entry of that list, and a
permitted view is left unchanged. -/
theorem c7_role_gate (r : UserRole) (v : ViewState) :
    roleGate r v ∈ roleViews r
  ∧ (v ∉ roleViews r → roleGate r v = (roleViews r).headI)
  ∧ (v ∈ roleViews r → roleGate r v = v) := by
  by_cases h : v ∈ roleViews r
  · refine ⟨?_, ?_, ?_⟩
    · simp [roleGate, h]
    · intro hn; exact absurd h hn
    · intro _; simp [roleGate, h]
  · refine ⟨?_, ?_, ?_⟩
    · simp only [roleGate, h, if_false]
      cases r <;> decide
    · intro _; simp [roleGate, h]
    · intro hm; exact absurd hm h

/-- Witness for C7: role maintenance with active view finance is
redirected to dashboard, the first entry of the maintenance list, and the
result is permitted. -/
theorem c7_witness :
    roleGate .maintenance .finance = .dashboard
  ∧ roleGate .maintenance .finance ∈ roleViews .maintenance := by
  constructor
  · exact (c7_role_gate .maintenance .finance).2.1 (by decide)
  · exact (c7_role_gate .maintenance .finance).1

/-! Helper lemmas about the localStorage model. -/

theorem getItem_removeItem_self (st : LocalStore) (k : String) :
    getItem (removeItem st k) k = none := by
  induction st with
  | nil => rfl
  | cons p t ih =>
    obtain ⟨a, b⟩ := p
    by_cases h : a = k
    · simp [removeItem, h, ih]
    · simp [removeItem, getItem, h, ih]

theorem getItem_removeItem_ne (st : LocalStore) (k key : String) (h : k ≠ key) :
    getItem (removeItem st key) k = getItem st k := by
  induction st with
  | nil => rfl
  | cons p t ih =>
    obtain ⟨a, b⟩ := p
    by_cases ha : a = key
    · subst ha
      simp [removeItem, getItem, Ne.symm h, ih]
    · by_cases hak : a = k
      · subst hak
        simp [removeItem, getItem, ha]
      · simp [removeItem, ha, getItem, hak, ih]

theorem getItem_setItem_self (st : LocalStore) (k v : String) :
    getItem (setItem st k v) k = some v := by
  simp [setItem, getItem]

theorem getItem_setItem_ne (st : LocalStore) (key k v : String) (h : key ≠ k) :
    getItem (setItem st key v) k = getItem st k := by
  simp only [setItem, getItem, if_neg h]
  exact getItem_removeItem_ne st k key (Ne.symm h)

/-- What clearAppCache guarantees about the resulting state: the named
cache keys are absent, the version marker is written, and settings, role
and active view are reset (the reload counter is untouched here; the
caller bumps it). -/
theorem clearAppCache_spec (s : AppState) :
    getItem (clearAppCache s).store "eburon_settings" = none
  ∧ getItem (clearAppCache s).store "eburon_role" = none
  ∧ getItem (clearAppCache s).store APP_CACHE_VERSION_KEY = some APP_CACHE_VERSION
  ∧ (clearAppCache s).settings = defaultSettings
  ∧ (clearAppCache s).role = .admin
  ∧ (clearAppCache s).activeView = .dashboard
  ∧ (clearAppCache s).reloads = s.reloads := by
  refine ⟨?_, ?_, ?_, rfl, rfl, rfl, rfl⟩
  · show getItem (setItem (removeItem (removeItem s.store "eburon_settings")
      "eburon_role") APP_CACHE_VERSION_KEY APP_CACHE_VERSION) "eburon_settings"
        = none
    rw [getItem_setItem_ne _ _ _ _ (by decide)]
    rw [getItem_removeItem_ne _ _ _ (by decide)]
    exact getItem_removeItem_self _ _
  · show getItem (setItem (removeItem (removeItem s.store "eburon_settings")
      "eburon_role") APP_CACHE_VERSION_KEY APP_CACHE_VERSION) "eburon_role"
        = none
    rw [getItem_setItem_ne _ _ _ _ (by decide)]
    exact getItem_removeItem_self _ _
  · exact getItem_setItem_self _ _ _

/-- C8: when the persisted cache-version marker differs from the constant
version, the startup check clears the named cache keys, resets settings
to the defaults, resets role to admin and the view to dashboard, writes
the new marker and triggers exactly one reload; when the marker matches,
the check is a no-op, and the check is idempotent. -/
theorem c8_cache_version_guard (s : AppState) :
    (getItem s.store APP_CACHE_VERSION_KEY ≠ some APP_CACHE_VERSION →
        getItem (checkCacheVersion s).store "eburon_settings" = none
      ∧ getItem (checkCacheVersion s).store "eburon_role" = none
      ∧ (checkCacheVersion s).settings = defaultSettings
      ∧ (checkCacheVersion s).role = .admin
      ∧ (checkCacheVersion s).activeView = .dashboard
      ∧ getItem (checkCacheVersion s).store APP_CACHE_VERSION_KEY
          = some APP_CACHE_VERSION
      ∧ (checkCacheVersion s).reloads = s.reloads + 1)
  ∧ (getItem s.store APP_CACHE_VERSION_KEY = some APP_CACHE_VERSION →
      checkCacheVersion s = s)
  ∧ checkCacheVersion (checkCacheVersion s) = checkCacheVersion s := by
  have hclear := clearAppCache_spec s
  refine ⟨?_, ?_, ?_⟩
  · intro h
    unfold checkCacheVersion
    rw [if_pos h]
    exact ⟨hclear.1, hclear.2.1, hclear.2.2.2.1, hclear.2.2.2.2.1,
      hclear.2.2.2.2.2.1, hclear.2.2.1, rfl⟩
  · intro h
    unfold checkCacheVersion
    rw [if_neg (not_not_intro h)]
  · by_cases h : getItem s.store APP_CACHE_VERSION_KEY = some APP_CACHE_VERSION
    · have hs : checkCacheVersion s = s := by
        unfold checkCacheVersion
        rw [if_neg (not_not_intro h)]
      rw [hs]
      exact hs
    · have h2 : checkCacheVersion s = triggerDataReload (clearAppCache s) := by
        unfold checkCacheVersion
        rw [if_pos h]
      have hmarker :
          getItem (triggerDataReload (clearAppCache s)).store APP_CACHE_VERSION_KEY
            = some APP_CACHE_VERSION := hclear.2.2.1
      rw [h2]
      unfold checkCacheVersion
      rw [if_neg (not_not_intro hmarker)]

/-- Witness for C8: starting from a state whose store holds marker "0",
junk settings and a cached owner role, the startup check clears both
cache keys, resets settings, role and view, writes marker "1" and bumps
the reload counter from 0 to 1. -/
theorem c8_witness :
    getItem (checkCacheVersion staleState).store "eburon_settings" = none
  ∧ getItem (checkCacheVersion staleState).store "eburon_role" = none
  ∧ (checkCacheVersion staleState).settings = defaultSettings
  ∧ (checkCacheVersion staleState).role = .admin
  ∧ (checkCacheVersion staleState).activeView = .dashboard
  ∧ getItem (checkCacheVersion staleState).store APP_CACHE_VERSION_KEY
      = some APP_CACHE_VERSION
  ∧ (checkCacheVersion staleState).reloads = staleState.reloads + 1 := by
  exact (c8_cache_version_guard staleState).1 (by decide)

/-! Helper lemmas about key-sorted lists. -/

theorem sortedByKey_sortByKey {α : Type} (key : α → Nat) (l : List α) :
    sortedByKey key (sortByKey key l) = true := by
  simp only [sortedByKey, sortByKey, decide_eq_true_eq]
  exact List.sorted_insertionSort (keyLe key) l

theorem sortedByKey_append_single {α : Type} (key : α → Nat) (l : List α)
    (a : α) (hs : sortedByKey key l = true)
    (hle : ∀ b ∈ l, key b ≤ key a) :
    sortedByKey key (l ++ [a]) = true := by
  simp only [sortedByKey, decide_eq_true_eq] at hs ⊢
  refine List.pairwise_append.mpr ⟨hs, List.sorted_singleton a, ?_⟩
  intro x hx b hb
  rw [List.mem_singleton] at hb
  subst hb
  exact hle x hx

/-- Counterexample for C9: a successful addEvent appends the new row at
the end of the collection regardless of its date, so adding an
earlier-dated event to a date-ordered collection leaves the collection
unsorted. -/
theorem c9_counterexample :
    sortedByKey eventSortKey [evLate] = true
  ∧ addEvent (.ok earlyEventRow) (.ok earlyEventRow) "2024-06-01T00:00:00.000Z"
      [evLate]
      = [evLate, mapEventRow "2024-06-01T00:00:00.000Z" earlyEventRow]
  ∧ sortedByKey eventSortKey
      (addEvent (.ok earlyEventRow) (.ok earlyEventRow)
        "2024-06-01T00:00:00.000Z" [evLate]) = false := by
  decide

/-- C9 (amended): load replaces the events collection with rows sorted
ascending by the date + start-time key, but a successful addEvent appends
the normalized returned row at the end of the collection irrespective of
its date, so the collection stays sorted after addEvent only when the new
row's key is at least every existing element's key. -/
theorem c9_events_ordering :
    (∀ (now : String) (rows : List Row),
      sortedByKey eventSortKey (loadEvents now rows) = true)
  ∧ (∀ (first second : WriteResult Row) (now : String)
      (prev : List CalendarEvent) (row : Row),
      (insertWithFallback first second).1 = .ok row →
      addEvent first second now prev = prev ++ [mapEventRow now row])
  ∧ (∀ (first second : WriteResult Row) (now : String)
      (prev : List CalendarEvent) (row : Row),
      (insertWithFallback first second).1 = .ok row →
      sortedByKey eventSortKey prev = true →
      (∀ e ∈ prev, eventSortKey e ≤ eventSortKey (mapEventRow now row)) →
      sortedByKey eventSortKey (addEvent first second now prev) = true) := by
  refine ⟨?_, ?_, ?_⟩
  · intro now rows
    exact sortedByKey_sortByKey eventSortKey (rows.map (mapEventRow now))
  · intro first second now prev row h
    simp only [addEvent, h]
  · intro first second now prev row h hs hle
    simp only [addEvent, h]
    exact sortedByKey_append_single eventSortKey prev (mapEventRow now row) hs hle

/-- Witness for C9 (amended): appending a later-dated event to a sorted
one-element collection keeps it sorted, and the append shape holds. -/
theorem c9_witness :
    addEvent (.ok lateEventRow) (.ok lateEventRow) "2024-06-01T00:00:00.000Z"
      [evLate]
      = [evLate] ++ [mapEventRow "2024-06-01T00:00:00.000Z" lateEventRow]
  ∧ sortedByKey eventSortKey
      (addEvent (.ok lateEventRow) (.ok lateEventRow)
        "2024-06-01T00:00:00.000Z" [evLate]) = true := by
  constructor
  · exact c9_events_ordering.2.1 _ _ _ _ _ rfl
  · exact c9_events_ordering.2.2 _ _ _ _ _ rfl (by decide) (by decide)

/-- C10: normalizeUserRole is total and closed over the four-role set:
after trimming and lower-casing, owner maps to owner,
maintenance/contractor to maintenance, renter/tenant to renter, and
everything else — admin, broker, agent, and every unrecognized value,
including null and the empty string — maps to admin. -/
theorem c10_normalize_user_role (raw : Option String) :
    (normalizeUserRole raw = .owner ↔ roleKeyOf raw = "owner".data)
  ∧ (normalizeUserRole raw = .maintenance ↔
      (roleKeyOf raw = "maintenance".data ∨ roleKeyOf raw = "contractor".data))
  ∧ (normalizeUserRole raw = .renter ↔
      (roleKeyOf raw = "renter".data ∨ roleKeyOf raw = "tenant".data))
  ∧ (normalizeUserRole raw = .admin ↔
      (roleKeyOf raw ≠ "owner".data ∧ roleKeyOf raw ≠ "maintenance".data
       ∧ roleKeyOf raw ≠ "contractor".data ∧ roleKeyOf raw ≠ "renter".data
       ∧ roleKeyOf raw ≠ "tenant".data)) := by
  simp only [normalizeUserRole]
  split_ifs with h1 h2 h3 h4
  · rcases h1 with h | h | h <;> rw [h] <;> decide
  · rw [h2]; decide
  · rcases h3 with h | h <;> rw [h] <;> decide
  · rcases h4 with h | h <;> rw [h] <;> decide
  · rw [not_or] at h3 h4
    simp [h2, h3.1, h3.2, h4.1, h4.2]

end EstateAdmin
